import Mathlib

/-!
# Verification of the TinyG2 stepper pulse-generation core

A shallow embedding of `src/TinyG2/stepper.cpp`: the DDA timer interrupt,
the dwell timer interrupt, the loader (`_load_move`), the exec chain, and
the segment preparation functions (`st_prep_line`, `st_prep_dwell`,
`st_prep_null`), together with `st_enable` / `st_disable` and the small
utilities.

Machine integers are embedded as `Nat` (for the `uint32_t` fields) and as
`Int` reduced through an explicit twos-complement wrap (for the `int32_t`
fields).  Finite `float` values are embedded as exact rationals; the float
to `uint32_t` cast is truncation toward zero, saturating at the ends of
the `uint32_t` range (the behaviour of the ARM conversion instruction the
reference hardware uses for out-of-range values).

Output pins are raw levels: `set()` stores `true`, `clear()` stores
`false`.  The per-motor enable lines are active-low in the reference
hardware, so `false` means "driver energised".
-/

/-- Number of controlled motors (`MOTORS`). -/
def MOTORS : Nat := 6

/-- Modelled from the spec: `DDA_SUBSTEPS` (the substep scaling factor
`SUBSTEPS`) is a compile-time constant defined in a header that is not
part of the sources; the end-to-end scenarios of the spec fix it at 10. -/
def DDA_SUBSTEPS : Nat := 10

/-- Modelled from the spec: `FREQUENCY_DDA` (`F_DDA`, Hz) comes from a
header not in the sources; the scenarios of the spec fix it at 200000. -/
def FREQUENCY_DDA : Nat := 200000

/-- Modelled from the spec: `FREQUENCY_DWELL` (`F_DWELL`, Hz) comes from a
header not in the sources; the reference firmware uses 1000. -/
def FREQUENCY_DWELL : Nat := 1000

/-- Modelled from the spec: `COUNTER_RESET_FACTOR` comes from a header not
in the sources; the scenarios of the spec fix it at 4. -/
def COUNTER_RESET_FACTOR : Nat := 4

/-- Modelled from the spec: `EPSILON` is "a small positive EPSILON" from a
header not in the sources; the reference firmware uses 0.00001. -/
def EPSILON : ℚ := 1 / 100000

/-- Twos-complement wrap of an integer into the `int32_t` range
`[-2^31, 2^31)`. -/
def wrap32 (z : Int) : Int := (z + 2 ^ 31) % 2 ^ 32 - 2 ^ 31

/-- The `uint32_t` modulus. -/
def U32_MOD : Nat := 2 ^ 32

/-- The C cast `(uint32_t)` applied to a finite float value (embedded as a
rational): truncation toward zero, saturating at 0 below and at
`2^32 - 1` above (out-of-range conversions are undefined in C; the ARM
conversion instruction saturates). -/
def truncToU32 (x : ℚ) : Nat :=
  if x < 0 then 0 else min (Int.toNat ⌊x⌋) (U32_MOD - 1)

/-- A `float` argument: `finite = false` stands for a NaN or an infinity
(the payload `val` is then irrelevant); a finite value is carried exactly
as a rational. -/
structure FloatVal where
  finite : Bool
  val : ℚ

/-- `prepBufferState` (stepper.cpp lines 116-119). -/
inductive PrepBufferState
  | PREP_BUFFER_OWNED_BY_LOADER
  | PREP_BUFFER_OWNED_BY_EXEC
deriving DecidableEq, Repr

export PrepBufferState (PREP_BUFFER_OWNED_BY_LOADER PREP_BUFFER_OWNED_BY_EXEC)

/-- Modelled from the spec: the move-type codes (`MOVE_TYPE_NULL`,
`MOVE_TYPE_ALINE`, `MOVE_TYPE_DWELL`) are declared in `planner.h`, which
is not in the sources; the spec gives `move_type ∈ {None/Null, ALine,
Dwell}`. -/
inductive MoveType
  | MOVE_TYPE_NULL
  | MOVE_TYPE_ALINE
  | MOVE_TYPE_DWELL
deriving DecidableEq, Repr

export MoveType (MOVE_TYPE_NULL MOVE_TYPE_ALINE MOVE_TYPE_DWELL)

/-- Modelled from the spec: the status codes returned by `st_prep_line`
(`STAT_OK`, `STAT_INTERNAL_ERROR`, `STAT_ZERO_LENGTH_MOVE`) and the
planner-side `STAT_NOOP` are declared in `tinyg2.h`, which is not in the
sources; the error taxonomy of the spec lists exactly these. -/
inductive Status
  | STAT_OK
  | STAT_INTERNAL_ERROR
  | STAT_ZERO_LENGTH_MOVE
  | STAT_NOOP
deriving DecidableEq, Repr

export Status (STAT_OK STAT_INTERNAL_ERROR STAT_ZERO_LENGTH_MOVE STAT_NOOP)

/-- `stRunMotor_t` (stepper.cpp lines 142-146).  Both `phase_increment`
and `phase_accumulator` are `int32_t`.  The diagnostic counter is present
but never incremented: the `INCREMENT_DIAGNOSTIC_COUNTER` macro is
defined empty at line 121. -/
structure StRunMotor where
  phase_increment : Int
  phase_accumulator : Int
  step_count_diagnostic : Nat
deriving DecidableEq, Repr

/-- `stRunSingleton_t` (stepper.cpp lines 148-153).  The two tick fields
are `int32_t`. -/
structure StRunSingleton where
  magic_start : Nat
  timer_ticks_downcount : Int
  timer_ticks_X_substeps : Int
  m : Fin 6 → StRunMotor
deriving DecidableEq

/-- `stPrepMotor_t` (stepper.cpp lines 158-161): `phase_increment` is
`uint32_t`, `dir` is an `int8_t` holding 0 or 1. -/
structure StPrepMotor where
  phase_increment : Nat
  dir : Nat
deriving DecidableEq, Repr

/-- `stPrepSingleton_t` (stepper.cpp lines 163-172). -/
structure StPrepSingleton where
  magic_start : Nat
  move_type : MoveType
  exec_state : PrepBufferState
  counter_reset_flag : Bool
  prev_ticks : Nat
  timer_ticks : Nat
  timer_ticks_X_substeps : Nat
  m : Fin 6 → StPrepMotor
deriving DecidableEq

/-- Read-only configuration consumed by the core: per-motor polarity and
power mode (`cfg.m[i]`), and whether the step pin of each motor is wired
(`!motor_i.step.isNull()`). -/
structure Config where
  polarity : Fin 6 → Nat
  power_mode : Fin 6 → Bool
  stepWired : Fin 6 → Bool

/-- The hardware touched by the core: pin levels (`set()` = `true`,
`clear()` = `false`), the two hardware timers, and the pending bit of the
exec software interrupt. -/
structure Hardware where
  sharedEnable : Bool
  motorStep : Fin 6 → Bool
  motorDir : Fin 6 → Bool
  motorEnable : Fin 6 → Bool
  ddaRunning : Bool
  dwellRunning : Bool
  execPending : Bool
deriving DecidableEq

/-- The whole mutable state of the module: the runtime singleton `st`,
the prep singleton `sps`, and the hardware. -/
structure St where
  run : StRunSingleton
  sps : StPrepSingleton
  hw : Hardware
deriving DecidableEq

/-- `st_enable` (stepper.cpp lines 246-250): clear the shared enable pin
and start the DDA timer. -/
def st_enable (hw : Hardware) : Hardware :=
  { hw with sharedEnable := false, ddaRunning := true }

/-- `st_disable` (stepper.cpp lines 252-267): stop the DDA timer, set the
shared enable pin, set the per-motor enable pins of motors 1, 2, 4, 5
and 6 (the source has no `motor_3.enable.set()` line), and zero every
runtime `phase_increment`. -/
def st_disable (run : StRunSingleton) (hw : Hardware) :
    StRunSingleton × Hardware :=
  ({ run with m := fun i => { run.m i with phase_increment := 0 } },
   { hw with
      ddaRunning := false
      sharedEnable := true
      motorEnable := fun i => if i.val = 2 then hw.motorEnable i else true })

/-- The per-motor block of the DDA interrupt body (stepper.cpp lines
306-310 and the five analogous blocks): if the step pin is wired, add the
increment into the accumulator; if the stored sum is positive, subtract
`st.timer_ticks_X_substeps` and raise the step pin (the returned `Bool`
records that leading edge). -/
def ddaMotorTick (ticksXsubsteps : Int) (wired : Bool) (mo : StRunMotor) :
    StRunMotor × Bool :=
  if wired then
    let a := wrap32 (mo.phase_accumulator + mo.phase_increment)
    if 0 < a then
      ({ mo with phase_accumulator := wrap32 (a - ticksXsubsteps) }, true)
    else
      ({ mo with phase_accumulator := a }, false)
  else
    (mo, false)

/-- Iterate `ddaMotorTick` over a number of DDA ticks, counting the step
pulses emitted on that motor. -/
def ddaRunMotor (ticksXsubsteps : Int) (wired : Bool) (mo : StRunMotor) :
    Nat → StRunMotor × Nat
  | 0 => (mo, 0)
  | t + 1 =>
    let r := ddaRunMotor ticksXsubsteps wired mo t
    let s := ddaMotorTick ticksXsubsteps wired r.1
    (s.1, r.2 + if s.2 then 1 else 0)

/-- `st_request_exec_move` (stepper.cpp lines 369-374): pend the exec
software interrupt only when the prep buffer is owned by the exec side. -/
def st_request_exec_move (sps : StPrepSingleton) (hw : Hardware) : Hardware :=
  if sps.exec_state = PREP_BUFFER_OWNED_BY_EXEC then
    { hw with execPending := true }
  else hw

/-- `_load_move` (stepper.cpp lines 448-542).  The ALine branch copies the
staged tick counts and per-motor increments into the runtime singleton,
reinitialises the phase accumulators when `counter_reset_flag` is set —
motors 1-3 to `-(st.timer_ticks_downcount)` and motors 4-6 to
`+(st.timer_ticks_downcount)`, exactly as the unrolled source blocks at
lines 469-530 do — drives the direction pin and clears (asserts) the
enable pin of every motor whose new increment is nonzero, and calls
`st_enable`.  The Dwell branch loads the downcounter and starts the dwell
timer.  Every path then flips `exec_state` back to the exec side and
calls `st_request_exec_move`. -/
def _load_move (s : St) : St :=
  let s1 :=
    if s.sps.move_type = MOVE_TYPE_ALINE then
      let down := wrap32 (s.sps.timer_ticks : Int)
      let newM : Fin 6 → StRunMotor := fun i =>
        { phase_increment := wrap32 ((s.sps.m i).phase_increment : Int)
          phase_accumulator :=
            if s.sps.counter_reset_flag then
              if i.val < 3 then -down else down
            else (s.run.m i).phase_accumulator
          step_count_diagnostic := (s.run.m i).step_count_diagnostic }
      let run' := { s.run with
        timer_ticks_downcount := down
        timer_ticks_X_substeps := wrap32 (s.sps.timer_ticks_X_substeps : Int)
        m := newM }
      let hw' := { s.hw with
        motorDir := fun i =>
          if (newM i).phase_increment ≠ 0 then decide ((s.sps.m i).dir ≠ 0)
          else s.hw.motorDir i
        motorEnable := fun i =>
          if (newM i).phase_increment ≠ 0 then false else s.hw.motorEnable i }
      { s with run := run', hw := st_enable hw' }
    else if s.sps.move_type = MOVE_TYPE_DWELL then
      { s with
        run := { s.run with
          timer_ticks_downcount := wrap32 (s.sps.timer_ticks : Int) }
        hw := { s.hw with dwellRunning := true } }
    else s
  let sps' := { s1.sps with exec_state := PREP_BUFFER_OWNED_BY_EXEC }
  { s1 with sps := sps', hw := st_request_exec_move sps' s1.hw }

/-- The DDA timer interrupt (stepper.cpp lines 301-355).  Runs the six
per-motor blocks, then clears all step pins (the returned vector records
which motors saw a leading edge this tick), then pre-decrements
`timer_ticks_downcount`; at zero it sets the enable pin of every motor
with `power_mode == true`, calls `st_disable` and then `_load_move`. -/
def dda_interrupt (cfg : Config) (s : St) : St × (Fin 6 → Bool) :=
  let ticked := fun i =>
    ddaMotorTick s.run.timer_ticks_X_substeps (cfg.stepWired i) (s.run.m i)
  let pulses := fun i => (ticked i).2
  let hw1 := { s.hw with motorStep := fun _ => false }
  let down := wrap32 (s.run.timer_ticks_downcount - 1)
  let run1 := { s.run with
    m := fun i => (ticked i).1
    timer_ticks_downcount := down }
  if down = 0 then
    let hw2 := { hw1 with
      motorEnable := fun i =>
        if cfg.power_mode i then true else hw1.motorEnable i }
    let rh := st_disable run1 hw2
    (_load_move { run := rh.1, sps := s.sps, hw := rh.2 }, pulses)
  else
    ({ s with run := run1, hw := hw1 }, pulses)

/-- The dwell timer interrupt (stepper.cpp lines 285-292): pre-decrement
`timer_ticks_downcount`; exactly when the result is zero, stop the dwell
timer and invoke the loader. -/
def dwell_interrupt (s : St) : St :=
  let down := wrap32 (s.run.timer_ticks_downcount - 1)
  let s1 := { s with run := { s.run with timer_ticks_downcount := down } }
  if down = 0 then
    _load_move { s1 with hw := { s1.hw with dwellRunning := false } }
  else s1

/-- `st_prep_line` (stepper.cpp lines 558-583).  Rejects with
`STAT_INTERNAL_ERROR` when the prep buffer is not owned by the exec side,
and with `STAT_ZERO_LENGTH_MOVE` when `microseconds` is not finite or is
`< EPSILON`; both rejections return before any field of `sps` is
written.  Otherwise it stages direction, per-motor increment, the tick
count, the tick count times `DDA_SUBSTEPS` (an integer multiplication),
the anti-stall `counter_reset_flag`, `prev_ticks` and the move type. -/
def st_prep_line (cfg : Config) (sps : StPrepSingleton) (steps : Fin 6 → ℚ)
    (microseconds : FloatVal) : Status × StPrepSingleton :=
  if sps.exec_state ≠ PREP_BUFFER_OWNED_BY_EXEC then
    (STAT_INTERNAL_ERROR, sps)
  else if microseconds.finite = false then
    (STAT_ZERO_LENGTH_MOVE, sps)
  else if microseconds.val < EPSILON then
    (STAT_ZERO_LENGTH_MOVE, sps)
  else
    let m' : Fin 6 → StPrepMotor := fun i =>
      { dir := (if steps i < 0 then 1 else 0) ^^^ cfg.polarity i
        phase_increment := truncToU32 |steps i * (DDA_SUBSTEPS : ℚ)| }
    let ticks := truncToU32 (microseconds.val / 1000000 * (FREQUENCY_DDA : ℚ))
    (STAT_OK, { sps with
      counter_reset_flag :=
        decide ((ticks * COUNTER_RESET_FACTOR) % U32_MOD < sps.prev_ticks)
      m := m'
      timer_ticks := ticks
      timer_ticks_X_substeps := (ticks * DDA_SUBSTEPS) % U32_MOD
      prev_ticks := ticks
      move_type := MOVE_TYPE_ALINE })

/-- `st_prep_null` (stepper.cpp lines 593-596). -/
def st_prep_null (sps : StPrepSingleton) : StPrepSingleton :=
  { sps with move_type := MOVE_TYPE_NULL }

/-- `st_prep_dwell` (stepper.cpp lines 602-607): unconditionally set the
move type to Dwell and the tick count to the truncated product; no
precondition is checked and nothing is returned. -/
def st_prep_dwell (sps : StPrepSingleton) (microseconds : ℚ) :
    StPrepSingleton :=
  { sps with
    move_type := MOVE_TYPE_DWELL
    timer_ticks := truncToU32 (microseconds / 1000000 * (FREQUENCY_DWELL : ℚ)) }

/-- `st_isbusy` (stepper.cpp lines 617-623). -/
def st_isbusy (run : StRunSingleton) : Bool :=
  if run.timer_ticks_downcount = 0 then false else true

/-- A zeroed runtime singleton, as left by the `memset` in `stepper_init`
(with the magic number installed). -/
def runZero : StRunSingleton :=
  { magic_start := 0
    timer_ticks_downcount := 0
    timer_ticks_X_substeps := 0
    m := fun _ => ⟨0, 0, 0⟩ }

/-- Hardware with every pin low, both timers stopped and no pending
software interrupt. -/
def hwZero : Hardware :=
  { sharedEnable := false
    motorStep := fun _ => false
    motorDir := fun _ => false
    motorEnable := fun _ => false
    ddaRunning := false
    dwellRunning := false
    execPending := false }

/-- A configuration with all polarities 0, power modes off, and every
step pin wired — the setup the end-to-end scenarios of the spec assume. -/
def cfgAllZero : Config :=
  { polarity := fun _ => 0
    power_mode := fun _ => false
    stepWired := fun _ => true }

/-- A prep singleton owned by the exec side with all fields cleared. -/
def spsOwned : StPrepSingleton :=
  { magic_start := 0
    move_type := MOVE_TYPE_NULL
    exec_state := PREP_BUFFER_OWNED_BY_EXEC
    counter_reset_flag := false
    prev_ticks := 0
    timer_ticks := 0
    timer_ticks_X_substeps := 0
    m := fun _ => ⟨0, 0⟩ }

/-- A staged ALine segment of 5 ticks with `counter_reset_flag` set and
every per-motor increment zero, ready for the loader. -/
def spsReset5 : StPrepSingleton :=
  { magic_start := 0
    move_type := MOVE_TYPE_ALINE
    exec_state := PREP_BUFFER_OWNED_BY_LOADER
    counter_reset_flag := true
    prev_ticks := 20
    timer_ticks := 5
    timer_ticks_X_substeps := 50
    m := fun _ => ⟨0, 0⟩ }

/-- The step vector `[100, 0, 0, 0, 0, 0]` of the first end-to-end scenario
of the spec. -/
def steps100 : Fin 6 → ℚ := ![100, 0, 0, 0, 0, 0]

/-- Round-to-nearest to an unsigned 32-bit integer, written from the words
of the spec (`round_to_u32`); used to compare against what the source
actually computes. -/
def round_to_u32 (x : ℚ) : Nat := (Int.toNat (round x)) % U32_MOD

/-- A prep singleton owned by the loader side (as after the exec chain
flips `exec_state`), with all other fields cleared. -/
def spsLoader : StPrepSingleton :=
  { spsOwned with exec_state := PREP_BUFFER_OWNED_BY_LOADER }

/-- A prep singleton owned by the exec side whose previous segment took
2000 ticks (the 10 ms segment of end-to-end scenario 4). -/
def spsPrev2000 : StPrepSingleton :=
  { spsOwned with prev_ticks := 2000 }

/-- A state in the middle of a dwell whose `timer_ticks_downcount` is
already 0 (a dwell loaded with `timer_ticks = 0`). -/
def dwellAtZero : St :=
  { run := runZero
    sps := spsOwned
    hw := { hwZero with dwellRunning := true } }

/-- `wrap32` is the identity on values already inside the `int32_t`
range. -/
theorem wrap32_eq_self {z : Int} (h1 : -(2 ^ 31) ≤ z) (h2 : z < 2 ^ 31) :
    wrap32 z = z := by
  have h3 : (0 : Int) ≤ z + 2 ^ 31 := by omega
  have h4 : z + 2 ^ 31 < 2 ^ 32 := by omega
  unfold wrap32
  rw [Int.emod_eq_of_lt h3 h4]
  omega

/-- Components of `ddaMotorTick` on a wired motor. -/
theorem ddaMotorTick_wired (M : Int) (mo : StRunMotor) :
    (ddaMotorTick M true mo).1.phase_increment = mo.phase_increment ∧
    (ddaMotorTick M true mo).1.phase_accumulator =
      (if 0 < wrap32 (mo.phase_accumulator + mo.phase_increment)
       then wrap32 (wrap32 (mo.phase_accumulator + mo.phase_increment) - M)
       else wrap32 (mo.phase_accumulator + mo.phase_increment)) ∧
    (ddaMotorTick M true mo).2 =
      decide (0 < wrap32 (mo.phase_accumulator + mo.phase_increment)) := by
  unfold ddaMotorTick
  by_cases h : 0 < wrap32 (mo.phase_accumulator + mo.phase_increment)
  · simp [h]
  · simp [h]

/-- The Bresenham invariant of the DDA inner loop: starting a wired motor
from accumulator `-M` with increment `I`, `0 ≤ I ≤ M`, after `t` ticks
with `p` pulses emitted the accumulator equals `I·t - (p+1)·M` and stays
in `[-M, 0]`, strictly above `-M` once a pulse has fired. -/
theorem ddaRunMotor_invariant (M I : Int) (d : Nat) (hM0 : 0 < M)
    (hMr : M ≤ 2 ^ 31 - 1) (hI0 : 0 ≤ I) (hIM : I ≤ M) (t : Nat) :
    (ddaRunMotor M true ⟨I, -M, d⟩ t).1.phase_increment = I ∧
    (ddaRunMotor M true ⟨I, -M, d⟩ t).1.phase_accumulator
      = I * t - (((ddaRunMotor M true ⟨I, -M, d⟩ t).2 : Int) + 1) * M ∧
    -M ≤ (ddaRunMotor M true ⟨I, -M, d⟩ t).1.phase_accumulator ∧
    (ddaRunMotor M true ⟨I, -M, d⟩ t).1.phase_accumulator ≤ 0 ∧
    (1 ≤ (ddaRunMotor M true ⟨I, -M, d⟩ t).2 →
      -M < (ddaRunMotor M true ⟨I, -M, d⟩ t).1.phase_accumulator) := by
  induction t with
  | zero =>
    refine ⟨rfl, ?_, ?_, ?_, ?_⟩
    · show (-M) = I * ((0 : Nat) : Int) - ((0 : Nat) + 1) * M
      push_cast
      ring
    · show -M ≤ -M
      omega
    · show -M ≤ 0
      omega
    · intro h
      exact absurd h (by simp [ddaRunMotor])
  | succ t ih =>
    obtain ⟨hinc, hacc, hlb, hub, hstrict⟩ := ih
    set r := ddaRunMotor M true ⟨I, -M, d⟩ t with hr
    have hr1 : ddaRunMotor M true ⟨I, -M, d⟩ (t + 1)
        = ((ddaMotorTick M true r.1).1,
           r.2 + if (ddaMotorTick M true r.1).2 then 1 else 0) := rfl
    obtain ⟨ht1, ht2, ht3⟩ := ddaMotorTick_wired M r.1
    have hw : wrap32 (r.1.phase_accumulator + r.1.phase_increment)
        = r.1.phase_accumulator + r.1.phase_increment := by
      apply wrap32_eq_self <;> omega
    rw [hw] at ht2 ht3
    by_cases hpos : 0 < r.1.phase_accumulator + r.1.phase_increment
    · have hw2 : wrap32 (r.1.phase_accumulator + r.1.phase_increment - M)
          = r.1.phase_accumulator + r.1.phase_increment - M := by
        apply wrap32_eq_self <;> omega
      rw [if_pos hpos, hw2] at ht2
      have ht3T : (ddaMotorTick M true r.1).2 = true := by
        rw [ht3]; exact decide_eq_true hpos
      rw [hr1]
      simp only [ht3T, if_true, ht1, ht2]
      refine ⟨hinc, ?_, by omega, by omega, fun _ => by omega⟩
      push_cast
      rw [hinc]
      linear_combination hacc
    · rw [if_neg hpos] at ht2
      have ht3F : (ddaMotorTick M true r.1).2 = false := by
        rw [ht3]; exact decide_eq_false hpos
      rw [hr1]
      simp only [ht3F, Bool.false_eq_true, if_false, Nat.add_zero, ht1, ht2]
      refine ⟨hinc, ?_, by omega, by omega, ?_⟩
      · push_cast
        rw [hinc]
        linear_combination hacc
      · intro hp2
        have := hstrict hp2
        omega


set_option maxRecDepth 4000 in
/-- Components of the ALine branch of `_load_move`: the loaded
downcounter and substep threshold are the wrapped staged values, the
per-motor increments are the wrapped staged increments, the accumulators
follow the source sign pattern (negated downcount for motors 1-3 only
when the reset flag is set, carried over otherwise), and the loader
leaves the direction and enable pins of a motor with staged increment 0
untouched. -/
theorem load_move_aline (s : St) (hmt : s.sps.move_type = MOVE_TYPE_ALINE) :
    (_load_move s).run.timer_ticks_downcount
      = wrap32 (s.sps.timer_ticks : Int) ∧
    (_load_move s).run.timer_ticks_X_substeps
      = wrap32 (s.sps.timer_ticks_X_substeps : Int) ∧
    (∀ i : Fin 6, ((_load_move s).run.m i).phase_increment
      = wrap32 ((s.sps.m i).phase_increment : Int)) ∧
    (∀ i : Fin 6, ((_load_move s).run.m i).phase_accumulator
      = if s.sps.counter_reset_flag then
          (if i.val < 3 then -(wrap32 (s.sps.timer_ticks : Int))
           else wrap32 (s.sps.timer_ticks : Int))
        else (s.run.m i).phase_accumulator) ∧
    (∀ i : Fin 6, (s.sps.m i).phase_increment = 0 →
      (_load_move s).hw.motorEnable i = s.hw.motorEnable i ∧
      (_load_move s).hw.motorDir i = s.hw.motorDir i) := by
  unfold _load_move
  rw [if_pos hmt]
  refine ⟨rfl, rfl, fun i => rfl, fun i => rfl, fun i h => ?_⟩
  have hz : wrap32 ((s.sps.m i).phase_increment : Int) = 0 := by
    rw [h]
    norm_num [wrap32]
  constructor
  · dsimp only [st_request_exec_move, st_enable]
    rw [if_pos rfl]
    dsimp only
    rw [hz]
    simp
  · dsimp only [st_request_exec_move, st_enable]
    rw [if_pos rfl]
    dsimp only
    rw [hz]
    simp

/-- A wired motor with increment 0 and a nonpositive accumulator is
inert: any number of DDA ticks leaves it unchanged and emits no pulse. -/
theorem ddaRunMotor_zero_inc (M : Int) (mo : StRunMotor)
    (hinc : mo.phase_increment = 0)
    (ha1 : -(2 ^ 31) ≤ mo.phase_accumulator)
    (ha2 : mo.phase_accumulator ≤ 0) :
    ∀ t : Nat, ddaRunMotor M true mo t = (mo, 0) := by
  have hw : wrap32 (mo.phase_accumulator + mo.phase_increment)
      = mo.phase_accumulator := by
    rw [hinc, add_zero]
    exact wrap32_eq_self ha1 (by omega)
  have hmo : ddaMotorTick M true mo = (mo, false) := by
    unfold ddaMotorTick
    rw [if_pos rfl]
    dsimp only
    rw [hw, if_neg (by omega)]
  intro t
  induction t with
  | zero => rfl
  | succ t ih =>
    have hr1 : ddaRunMotor M true mo (t + 1)
        = ((ddaMotorTick M true (ddaRunMotor M true mo t).1).1,
           (ddaRunMotor M true mo t).2
             + if (ddaMotorTick M true (ddaRunMotor M true mo t).1).2
               then 1 else 0) := rfl
    rw [hr1, ih]
    dsimp only
    rw [hmo]
    rfl

/-- A wired motor with increment 0 and a positive accumulator (at most
the substep threshold) fires exactly once, on the first DDA tick, and is
inert afterwards. -/
theorem ddaRunMotor_zero_inc_one (M : Int) (mo : StRunMotor)
    (hinc : mo.phase_increment = 0)
    (h0 : 0 < mo.phase_accumulator) (h2 : mo.phase_accumulator < 2 ^ 31)
    (hM : mo.phase_accumulator ≤ M) (hM2 : M < 2 ^ 31) :
    ∀ t : Nat, 1 ≤ t →
      ddaRunMotor M true mo t
        = ({ mo with phase_accumulator := mo.phase_accumulator - M }, 1) := by
  have hw : wrap32 (mo.phase_accumulator + mo.phase_increment)
      = mo.phase_accumulator := by
    rw [hinc, add_zero]
    exact wrap32_eq_self (by omega) h2
  have hw2 : wrap32 (mo.phase_accumulator - M) = mo.phase_accumulator - M :=
    wrap32_eq_self (by omega) (by omega)
  have hmo : ddaMotorTick M true mo
      = ({ mo with phase_accumulator := mo.phase_accumulator - M }, true) := by
    unfold ddaMotorTick
    rw [if_pos rfl]
    dsimp only
    rw [hw, if_pos h0, hw2]
  have hstay : ddaMotorTick M true
        { mo with phase_accumulator := mo.phase_accumulator - M }
      = ({ mo with phase_accumulator := mo.phase_accumulator - M }, false) := by
    unfold ddaMotorTick
    rw [if_pos rfl]
    dsimp only
    rw [hinc, add_zero]
    rw [wrap32_eq_self (by omega) (by omega), if_neg (by omega)]
  intro t
  induction t with
  | zero => omega
  | succ t ih =>
    intro _
    rcases Nat.eq_zero_or_pos t with rfl | ht1
    · have hr1 : ddaRunMotor M true mo 1
          = ((ddaMotorTick M true (ddaRunMotor M true mo 0).1).1,
             (ddaRunMotor M true mo 0).2
               + if (ddaMotorTick M true (ddaRunMotor M true mo 0).1).2
                 then 1 else 0) := rfl
      rw [hr1]
      dsimp only [ddaRunMotor]
      rw [hmo]
      rfl
    · have hr1 : ddaRunMotor M true mo (t + 1)
          = ((ddaMotorTick M true (ddaRunMotor M true mo t).1).1,
             (ddaRunMotor M true mo t).2
               + if (ddaMotorTick M true (ddaRunMotor M true mo t).1).2
                 then 1 else 0) := rfl
      rw [hr1, ih ht1]
      dsimp only
      rw [hstay]
      rfl

/-- C1 (counterexample): with `T = 1`, `SUBSTEPS = 10`,
`timer_ticks_x_substeps = T × SUBSTEPS = 10`, accumulator starting at
`-T·SUBSTEPS` and increment `I = 10`, one DDA tick emits 0 pulses, not
`⌊I / SUBSTEPS⌋ = 1` as the claim states: the accumulator reaches exactly
0 and the strict `> 0` test does not fire. -/
theorem C1_counterexample :
    (ddaRunMotor ((1 : Int) * 10) true ⟨(10 : Int), -((1 : Int) * 10), 0⟩ 1).2
      ≠ 10 / DDA_SUBSTEPS := by decide

/-- C1 (amended): for an ALine segment of `T` DDA ticks with
`timer_ticks_x_substeps = T × S` (where `S` plays `SUBSTEPS`), a wired
motor whose accumulator starts at `-T·S` and whose increment is `I` with
`I ≤ T·S` emits exactly `⌊(I-1)/S⌋` step pulses over the `T` ticks — that
is `⌊I/S⌋` when `S` does not divide `I`, and `I/S - 1` when it does (the
accumulator lands exactly on 0 at each multiple and the strict `> 0` test
skips that pulse). -/
theorem C1_pulse_count (T S I : Nat) (hT : 0 < T) (hS : 0 < S)
    (hI : I ≤ T * S) (hM : T * S < 2 ^ 31) :
    (ddaRunMotor ((T : Int) * S) true ⟨(I : Int), -((T : Int) * S), 0⟩ T).2
      = (I - 1) / S := by
  have hM0 : (0 : Int) < (T : Int) * S := by
    have := Nat.mul_pos hT hS
    exact_mod_cast this
  have hMr : (T : Int) * S ≤ 2 ^ 31 - 1 := by
    have h2 : ((T * S : Nat) : Int) < 2 ^ 31 := by exact_mod_cast hM
    push_cast at h2
    omega
  have hI0 : (0 : Int) ≤ (I : Int) := Int.natCast_nonneg I
  have hIM : (I : Int) ≤ (T : Int) * S := by exact_mod_cast hI
  obtain ⟨hinc, hacc, hlb, hub, hstrict⟩ :=
    ddaRunMotor_invariant ((T : Int) * S) I 0 hM0 hMr hI0 hIM T
  generalize hpdef :
    (ddaRunMotor ((T : Int) * S) true ⟨(I : Int), -((T : Int) * S), 0⟩ T).2 = p
    at hacc hstrict ⊢
  generalize hadef :
    (ddaRunMotor ((T : Int) * S) true
      ⟨(I : Int), -((T : Int) * S), 0⟩ T).1.phase_accumulator = A
    at hacc hlb hub hstrict
  have hexp : ((p : Int) + 1) * ((T : Int) * S)
      = (p : Int) * ((T : Int) * S) + (T : Int) * S := by ring
  rcases Nat.eq_zero_or_pos p with hp0 | hp1
  · -- no pulse: I·T ≤ T·S forces I ≤ S, and then (I-1)/S = 0
    subst hp0
    have hIT : (I : Int) * T ≤ (T : Int) * S := by
      push_cast at hacc
      omega
    have hIS : (I : Int) * T ≤ (S : Int) * T := by
      calc (I : Int) * T ≤ (T : Int) * S := hIT
        _ = (S : Int) * T := by ring
    have hIS2 : (I : Int) ≤ S :=
      le_of_mul_le_mul_right hIS (by exact_mod_cast hT)
    have : I ≤ S := by exact_mod_cast hIS2
    exact (Nat.div_eq_of_lt (by omega)).symm
  · -- at least one pulse: p·(T·S) < I·T ≤ (p+1)·(T·S)
    have hstr := hstrict hp1
    have hq1 : ((p : Int) * S) * T < (I : Int) * T := by
      have h3 : (p : Int) * ((T : Int) * S) < (I : Int) * T := by omega
      calc ((p : Int) * S) * T = (p : Int) * ((T : Int) * S) := by ring
        _ < (I : Int) * T := h3
    have hq2 : (I : Int) * T ≤ (((p : Int) + 1) * S) * T := by
      have h4 : (I : Int) * T ≤ ((p : Int) + 1) * ((T : Int) * S) := by omega
      calc (I : Int) * T ≤ ((p : Int) + 1) * ((T : Int) * S) := h4
        _ = (((p : Int) + 1) * S) * T := by ring
    have hq1n : (p : Int) * S < I :=
      lt_of_mul_lt_mul_right hq1 (by exact_mod_cast Nat.zero_le T)
    have hq2n : (I : Int) ≤ ((p : Int) + 1) * S :=
      le_of_mul_le_mul_right hq2 (by exact_mod_cast hT)
    have hn1 : p * S < I := by exact_mod_cast hq1n
    have hn2 : I ≤ (p + 1) * S := by exact_mod_cast hq2n
    exact (Nat.div_eq_of_lt_le (by omega) (by omega)).symm

/-- C1 (witness): `T = 2`, `S = 3`, `I = 5`: two ticks emit exactly
`⌊(5-1)/3⌋ = 1` pulse. -/
theorem C1_pulse_count_witness :
    (0 < 2 ∧ 0 < 3 ∧ 5 ≤ 2 * 3 ∧ 2 * 3 < 2 ^ 31) ∧
    (ddaRunMotor ((2 : Int) * 3) true ⟨(5 : Int), -((2 : Int) * 3), 0⟩ 2).2
      = (5 - 1) / 3 :=
  ⟨by decide,
   C1_pulse_count 2 3 5 (by decide) (by decide) (by decide) (by decide)⟩

/-- C2 (counterexample): loading an ALine segment of 5 ticks with
`counter_reset_flag = true` sets the phase accumulator of motor 4
(index 3) to `+timer_ticks_downcount = 5`, not to
`-timer_ticks_downcount = -5` as the claim states (stepper.cpp line 504
has no minus sign); motor 1 does get `-5`. -/
theorem C2_sign_flip :
    (_load_move ⟨runZero, spsReset5, hwZero⟩).run.timer_ticks_downcount
      = 5 ∧
    ((_load_move ⟨runZero, spsReset5, hwZero⟩).run.m 3).phase_accumulator
      = 5 ∧
    ((_load_move ⟨runZero, spsReset5, hwZero⟩).run.m 3).phase_accumulator
      ≠ -((_load_move ⟨runZero, spsReset5, hwZero⟩).run.timer_ticks_downcount) ∧
    ((_load_move ⟨runZero, spsReset5, hwZero⟩).run.m 0).phase_accumulator
      = -5 := by
  decide

/-- C2 (amended): in the ALine branch of the loader, whenever
`counter_reset_flag` is true, the runtime phase accumulator of motors
1-3 (indices 0-2) is set to `-timer_ticks_downcount` while that of
motors 4-6 (indices 3-5) is set to `+timer_ticks_downcount` — the
negated tick count for the first three motors only (stepper.cpp lines
471/484/494 versus 504/514/524).  The spec (section 9) flags the
positive sign as a latent bug. -/
theorem C2_load_accumulators (s : St)
    (hmt : s.sps.move_type = MOVE_TYPE_ALINE)
    (hrst : s.sps.counter_reset_flag = true) (i : Fin 6) :
    ((_load_move s).run.m i).phase_accumulator
      = if i.val < 3 then -((_load_move s).run.timer_ticks_downcount)
        else (_load_move s).run.timer_ticks_downcount := by
  obtain ⟨hd, hx, hincs, haccs, henv⟩ := load_move_aline s hmt
  rw [haccs i, hd, hrst]
  simp

/-- C2 (witness): the 5-tick reset segment, motor 5 (index 4): its
accumulator equals `+timer_ticks_downcount`. -/
theorem C2_load_accumulators_witness :
    ((_load_move ⟨runZero, spsReset5, hwZero⟩).run.m 4).phase_accumulator
      = if (4 : Fin 6).val < 3 then
          -((_load_move ⟨runZero, spsReset5, hwZero⟩).run.timer_ticks_downcount)
        else (_load_move ⟨runZero, spsReset5, hwZero⟩).run.timer_ticks_downcount :=
  C2_load_accumulators ⟨runZero, spsReset5, hwZero⟩ rfl rfl 4

/-- C3 (counterexample): motor index 3 has a staged step count of 0, yet
on the first DDA tick after loading a `counter_reset_flag` segment of 5
ticks it emits a step pulse, because the loader set its accumulator to
`+5 > 0`; the enable-line half of the claim does hold (the loader leaves
the enable pin of a zero-increment motor untouched). -/
theorem C3_idle_motor_pulse :
    (spsReset5.m 3).phase_increment = 0 ∧
    (dda_interrupt cfgAllZero (_load_move ⟨runZero, spsReset5, hwZero⟩)).2 3
      = true ∧
    (_load_move ⟨runZero, spsReset5, hwZero⟩).hw.motorEnable 3
      = hwZero.motorEnable 3 := by
  decide

/-- C3 (amended): for every motor `i` whose staged step count is 0, the
loader does not touch its enable line; over a segment loaded with
`counter_reset_flag = true`, motors of index 0-2 emit no pulse at all,
while each zero-increment motor of index 3-5 emits exactly one spurious
pulse, on the first DDA tick (its accumulator was reset to the positive
tick count, a consequence of the sign bug of C2); with
`counter_reset_flag = false` a zero-increment motor whose carried
accumulator is nonpositive (the steady-state invariant) emits no
pulse. -/
theorem C3_zero_step_behavior (s : St) (i : Fin 6) (t : Nat)
    (hmt : s.sps.move_type = MOVE_TYPE_ALINE)
    (hinc : (s.sps.m i).phase_increment = 0)
    (hT : 0 < s.sps.timer_ticks) (hT2 : s.sps.timer_ticks < 2 ^ 31)
    (hX : s.sps.timer_ticks ≤ s.sps.timer_ticks_X_substeps)
    (hX2 : s.sps.timer_ticks_X_substeps < 2 ^ 31) :
    ((_load_move s).hw.motorEnable i = s.hw.motorEnable i) ∧
    (s.sps.counter_reset_flag = true →
      (ddaRunMotor (_load_move s).run.timer_ticks_X_substeps true
          ((_load_move s).run.m i) t).2
        = if i.val < 3 then 0 else if t = 0 then 0 else 1) ∧
    (s.sps.counter_reset_flag = false →
      -(2 ^ 31) ≤ (s.run.m i).phase_accumulator →
      (s.run.m i).phase_accumulator ≤ 0 →
      (ddaRunMotor (_load_move s).run.timer_ticks_X_substeps true
          ((_load_move s).run.m i) t).2 = 0) := by
  obtain ⟨hd, hx, hincs, haccs, henv⟩ := load_move_aline s hmt
  have hTi : (0 : Int) < (s.sps.timer_ticks : Int) := by exact_mod_cast hT
  have hTi2 : (s.sps.timer_ticks : Int) < 2 ^ 31 := by
    have := (Int.ofNat_lt).2 hT2
    push_cast at this ⊢
    omega
  have hXi : (s.sps.timer_ticks : Int)
      ≤ (s.sps.timer_ticks_X_substeps : Int) := by
    exact_mod_cast hX
  have hXi2 : (s.sps.timer_ticks_X_substeps : Int) < 2 ^ 31 := by
    have := (Int.ofNat_lt).2 hX2
    push_cast at this ⊢
    omega
  have hTw : wrap32 (s.sps.timer_ticks : Int) = (s.sps.timer_ticks : Int) :=
    wrap32_eq_self (by omega) (by omega)
  have hXw : wrap32 (s.sps.timer_ticks_X_substeps : Int)
      = (s.sps.timer_ticks_X_substeps : Int) :=
    wrap32_eq_self (by omega) (by omega)
  have hAinc : ((_load_move s).run.m i).phase_increment = 0 := by
    rw [hincs i, hinc]
    norm_num [wrap32]
  have hMX : (_load_move s).run.timer_ticks_X_substeps
      = (s.sps.timer_ticks_X_substeps : Int) := by rw [hx, hXw]
  refine ⟨(henv i hinc).1, ?_, ?_⟩
  · intro hflag
    have hAacc : ((_load_move s).run.m i).phase_accumulator
        = if i.val < 3 then -(s.sps.timer_ticks : Int)
          else (s.sps.timer_ticks : Int) := by
      rw [haccs i, hflag, hTw]
      simp
    by_cases hi : i.val < 3
    · rw [if_pos hi] at hAacc
      rw [ddaRunMotor_zero_inc _ _ hAinc (by omega) (by omega) t]
      rw [if_pos hi]
    · rw [if_neg hi] at hAacc
      rw [if_neg hi]
      rcases Nat.eq_zero_or_pos t with rfl | ht1
      · rfl
      · rw [ddaRunMotor_zero_inc_one _ _ hAinc (by omega)
          (by omega) (by rw [hMX]; omega) (by rw [hMX]; omega) t ht1]
        rw [if_neg (by omega)]
  · intro hflag ha1 ha2
    have hAacc : ((_load_move s).run.m i).phase_accumulator
        = (s.run.m i).phase_accumulator := by
      rw [haccs i, hflag]
      simp
    rw [ddaRunMotor_zero_inc _ _ hAinc (by omega) (by omega) t]

/-- C3 (witness): the 5-tick reset segment, zero-increment motor 4
(index 3), run for 5 ticks: the enable pin is untouched and exactly one
pulse is emitted. -/
theorem C3_zero_step_witness :
    (_load_move ⟨runZero, spsReset5, hwZero⟩).hw.motorEnable 3
      = hwZero.motorEnable 3 ∧
    (ddaRunMotor
        (_load_move ⟨runZero, spsReset5, hwZero⟩).run.timer_ticks_X_substeps
        true ((_load_move ⟨runZero, spsReset5, hwZero⟩).run.m 3) 5).2 = 1 := by
  have h := C3_zero_step_behavior ⟨runZero, spsReset5, hwZero⟩ 3 5 rfl rfl
    (by decide) (by decide) (by decide) (by decide)
  refine ⟨h.1, ?_⟩
  have h2 := h.2.1 rfl
  simpa using h2

/-- C8 (counterexample): `st_disable` stops the DDA timer, sets the
shared enable line, zeroes every runtime `phase_increment`, and sets the
per-motor enable lines of motors 1, 2, 4, 5, 6 — but leaves motor 3
(index 2) untouched: starting from all-low pins, its enable line is still
low afterwards, contradicting the "every one of the six motors" part of
the claim. -/
theorem C8_motor3_skipped :
    (st_disable runZero hwZero).2.ddaRunning = false ∧
    (st_disable runZero hwZero).2.sharedEnable = true ∧
    (st_disable runZero hwZero).2.motorEnable 0 = true ∧
    (st_disable runZero hwZero).2.motorEnable 1 = true ∧
    (st_disable runZero hwZero).2.motorEnable 2 = false ∧
    (st_disable runZero hwZero).2.motorEnable 3 = true ∧
    (st_disable runZero hwZero).2.motorEnable 4 = true ∧
    (st_disable runZero hwZero).2.motorEnable 5 = true ∧
    ((st_disable runZero hwZero).1.m 0).phase_increment = 0 ∧
    ((st_disable runZero hwZero).1.m 1).phase_increment = 0 ∧
    ((st_disable runZero hwZero).1.m 2).phase_increment = 0 ∧
    ((st_disable runZero hwZero).1.m 3).phase_increment = 0 ∧
    ((st_disable runZero hwZero).1.m 4).phase_increment = 0 ∧
    ((st_disable runZero hwZero).1.m 5).phase_increment = 0 := by
  decide

/-- C8 (amended): every call to `st_disable` stops the DDA timer, sets
the shared enable line, sets the per-motor enable line of five of the
six motors — every motor except motor 3 (index 2), whose enable line is
left unchanged, stepper.cpp lines 256-260 having no
`motor_3.enable.set()` — and zeroes the runtime `phase_increment` of all
six motors, leaving their accumulators and the downcounter alone. -/
theorem C8_disable (run : StRunSingleton) (hw : Hardware) :
    (st_disable run hw).2.ddaRunning = false ∧
    (st_disable run hw).2.sharedEnable = true ∧
    (∀ i : Fin 6, i.val ≠ 2 → (st_disable run hw).2.motorEnable i = true) ∧
    (st_disable run hw).2.motorEnable 2 = hw.motorEnable 2 ∧
    (∀ i : Fin 6, ((st_disable run hw).1.m i).phase_increment = 0) ∧
    (∀ i : Fin 6, ((st_disable run hw).1.m i).phase_accumulator
      = (run.m i).phase_accumulator) ∧
    (st_disable run hw).1.timer_ticks_downcount
      = run.timer_ticks_downcount := by
  refine ⟨rfl, rfl, fun i h => ?_, ?_, fun i => rfl, fun i => rfl, rfl⟩
  · show (if i.val = 2 then hw.motorEnable i else true) = true
    rw [if_neg h]
  · show (if (2 : Fin 6).val = 2 then hw.motorEnable 2 else true)
      = hw.motorEnable 2
    rw [if_pos (by decide : (2 : Fin 6).val = 2)]

/-- C8 (witness): from all-low pins, motor 1 (index 0) is powered off
while motor 3 (index 2) keeps its previous enable level. -/
theorem C8_disable_witness :
    (st_disable runZero hwZero).2.motorEnable 0 = true ∧
    (st_disable runZero hwZero).2.motorEnable 2 = hwZero.motorEnable 2 :=
  ⟨(C8_disable runZero hwZero).2.2.1 0 (by decide),
   (C8_disable runZero hwZero).2.2.2.1⟩

/-- C4 (amended): `st_prep_line` returns `InternalError` whenever the
prep buffer is not owned by the exec side; otherwise it returns
`ZeroLengthMove` whenever `microseconds` is non-finite or strictly below
`EPSILON` (the source tests `microseconds < EPSILON`, so the boundary
value `microseconds = EPSILON` is accepted); in every error case the
entire Stage structure is returned unmodified. -/
theorem C4_error_paths (cfg : Config) (sps : StPrepSingleton)
    (steps : Fin 6 → ℚ) (microseconds : FloatVal) :
    (sps.exec_state ≠ PREP_BUFFER_OWNED_BY_EXEC →
      st_prep_line cfg sps steps microseconds = (STAT_INTERNAL_ERROR, sps)) ∧
    (sps.exec_state = PREP_BUFFER_OWNED_BY_EXEC →
      (microseconds.finite = false ∨ microseconds.val < EPSILON) →
      st_prep_line cfg sps steps microseconds
        = (STAT_ZERO_LENGTH_MOVE, sps)) := by
  constructor
  · intro h
    unfold st_prep_line
    rw [if_pos h]
  · intro h1 h2
    unfold st_prep_line
    rw [if_neg (by simp [h1])]
    by_cases hf : microseconds.finite = false
    · rw [if_pos hf]
    · rw [if_neg hf]
      rcases h2 with h2 | h2
      · exact absurd h2 hf
      · rw [if_pos h2]

/-- C4 (witness): the three rejection paths at concrete inputs — wrong
owner, non-finite duration, zero duration — each returning the stated
status with the Stage unchanged. -/
theorem C4_error_paths_witness :
    (st_prep_line cfgAllZero spsLoader (fun _ => 0) ⟨true, 1000⟩
      = (STAT_INTERNAL_ERROR, spsLoader)) ∧
    (st_prep_line cfgAllZero spsOwned (fun _ => 0) ⟨false, 0⟩
      = (STAT_ZERO_LENGTH_MOVE, spsOwned)) ∧
    (st_prep_line cfgAllZero spsOwned (fun _ => 0) ⟨true, 0⟩
      = (STAT_ZERO_LENGTH_MOVE, spsOwned)) :=
  ⟨(C4_error_paths cfgAllZero spsLoader (fun _ => 0) ⟨true, 1000⟩).1
      (by decide),
   (C4_error_paths cfgAllZero spsOwned (fun _ => 0) ⟨false, 0⟩).2 rfl
      (Or.inl rfl),
   (C4_error_paths cfgAllZero spsOwned (fun _ => 0) ⟨true, 0⟩).2 rfl
      (Or.inr (by norm_num [EPSILON]))⟩

/-- C4 (counterexample): at `microseconds = EPSILON` exactly — a value
`≤ EPSILON` — `st_prep_line` returns `STAT_OK`, not `ZeroLengthMove` as
the claim states, because the source rejects only `microseconds <
EPSILON`. -/
theorem C4_boundary_cex :
    (EPSILON : ℚ) ≤ EPSILON ∧
    (st_prep_line cfgAllZero spsOwned (fun _ => 0) ⟨true, EPSILON⟩).1
      = STAT_OK ∧
    STAT_OK ≠ STAT_ZERO_LENGTH_MOVE := by
  refine ⟨le_refl _, ?_, by decide⟩
  unfold st_prep_line
  rw [if_neg (by decide), if_neg (by decide), if_neg (by norm_num [EPSILON])]

/-- C5 (amended): for every accepted finite duration, the staged
`timer_ticks` is the truncation toward zero (the floor, the value being
nonnegative) of `(microseconds / 10^6) × F_DDA` — the C cast
`(uint32_t)` at stepper.cpp line 573 — not the round-to-nearest integer
the claim states. -/
theorem C5_truncation (cfg : Config) (sps : StPrepSingleton)
    (steps : Fin 6 → ℚ) (microseconds : FloatVal)
    (h1 : sps.exec_state = PREP_BUFFER_OWNED_BY_EXEC)
    (h2 : microseconds.finite = true)
    (h3 : ¬ microseconds.val < EPSILON)
    (h4 : microseconds.val * FREQUENCY_DDA / 1000000 < 2 ^ 32) :
    (st_prep_line cfg sps steps microseconds).2.timer_ticks
      = Int.toNat ⌊microseconds.val * FREQUENCY_DDA / 1000000⌋ := by
  unfold st_prep_line
  rw [if_neg (by simp [h1]), if_neg (by simp [h2]), if_neg h3]
  dsimp only
  have hx : microseconds.val / 1000000 * (FREQUENCY_DDA : ℚ)
      = microseconds.val * FREQUENCY_DDA / 1000000 := by ring
  unfold truncToU32
  rw [hx]
  have hge : (0 : ℚ) ≤ microseconds.val * FREQUENCY_DDA / 1000000 := by
    have hE : (0 : ℚ) < EPSILON := by norm_num [EPSILON]
    have hv : (0 : ℚ) ≤ microseconds.val := le_trans hE.le (not_lt.1 h3)
    positivity
  rw [if_neg (not_lt.2 hge)]
  have hfl : ⌊microseconds.val * FREQUENCY_DDA / 1000000⌋ < (2 : Int) ^ 32 := by
    have := Int.floor_le (microseconds.val * FREQUENCY_DDA / 1000000)
    have h32 : ((2 : Int) ^ 32 : ℚ) = (2 : ℚ) ^ 32 := by norm_num
    by_contra hc
    push_neg at hc
    have : ((2 : Int) ^ 32 : ℚ) ≤ microseconds.val * FREQUENCY_DDA / 1000000 :=
      le_trans (by exact_mod_cast Int.cast_le.2 hc) this
    rw [h32] at this
    exact absurd h4 (not_lt.2 this)
  have : Int.toNat ⌊microseconds.val * FREQUENCY_DDA / 1000000⌋
      ≤ U32_MOD - 1 := by
    unfold U32_MOD
    omega
  exact min_eq_left this

/-- C5 (counterexample): at `microseconds = 7.5` the exact product
`(7.5 / 10^6) × 200000 = 1.5`; the source stages `timer_ticks = 1`
(truncation) while the round-to-nearest value the claim requires is 2. -/
theorem C5_round_cex :
    (st_prep_line cfgAllZero spsOwned (fun _ => 0) ⟨true, 15 / 2⟩).2.timer_ticks
      = 1 ∧
    round_to_u32 ((15 / 2 : ℚ) / 1000000 * FREQUENCY_DDA) = 2 ∧
    (1 : Nat) ≠ 2 := by
  refine ⟨?_, ?_, by decide⟩
  · unfold st_prep_line
    rw [if_neg (by decide), if_neg (by decide), if_neg (by norm_num [EPSILON])]
    dsimp only
    norm_num [truncToU32, FREQUENCY_DDA, U32_MOD]
  · have h2 : round ((15 / 2 : ℚ) / 1000000 * FREQUENCY_DDA) = 2 := by
      norm_num [FREQUENCY_DDA, round_eq]
    rw [round_to_u32, h2]
    decide

/-- C5 (witness): at `microseconds = 1000` the staged `timer_ticks` is
the floor of `1000 × 200000 / 10^6 = 200`. -/
theorem C5_truncation_witness :
    (st_prep_line cfgAllZero spsOwned steps100 ⟨true, 1000⟩).2.timer_ticks
      = Int.toNat ⌊(1000 : ℚ) * FREQUENCY_DDA / 1000000⌋ :=
  C5_truncation cfgAllZero spsOwned steps100 ⟨true, 1000⟩ rfl rfl
    (by norm_num [EPSILON]) (by norm_num [FREQUENCY_DDA])

/-- C6: after every successful `st_prep_line` call the staged
`counter_reset_flag` is true exactly when the new `timer_ticks` times
`COUNTER_RESET_FACTOR` (in unsigned 32-bit arithmetic) is strictly below
the `prev_ticks` of the previous segment, and `prev_ticks` is then
updated to the new `timer_ticks`. -/
theorem C6_reset_flag (cfg : Config) (sps : StPrepSingleton)
    (steps : Fin 6 → ℚ) (microseconds : FloatVal)
    (h1 : sps.exec_state = PREP_BUFFER_OWNED_BY_EXEC)
    (h2 : microseconds.finite = true)
    (h3 : ¬ microseconds.val < EPSILON) :
    (st_prep_line cfg sps steps microseconds).1 = STAT_OK ∧
    ((st_prep_line cfg sps steps microseconds).2.counter_reset_flag = true ↔
      ((st_prep_line cfg sps steps microseconds).2.timer_ticks
          * COUNTER_RESET_FACTOR) % U32_MOD
        < sps.prev_ticks) ∧
    (st_prep_line cfg sps steps microseconds).2.prev_ticks
      = (st_prep_line cfg sps steps microseconds).2.timer_ticks := by
  unfold st_prep_line
  rw [if_neg (by simp [h1]), if_neg (by simp [h2]), if_neg h3]
  refine ⟨rfl, ?_, rfl⟩
  dsimp only
  exact decide_eq_true_iff

/-- C6 (witness): end-to-end scenario 4 — after a 2000-tick segment, a
1-millisecond segment (200 ticks, `200 × 4 = 800 < 2000`) raises the
reset flag and updates `prev_ticks`. -/
theorem C6_reset_flag_witness :
    (st_prep_line cfgAllZero spsPrev2000 steps100 ⟨true, 1000⟩).1
      = STAT_OK ∧
    ((st_prep_line cfgAllZero spsPrev2000 steps100
          ⟨true, 1000⟩).2.counter_reset_flag = true ↔
      ((st_prep_line cfgAllZero spsPrev2000 steps100
            ⟨true, 1000⟩).2.timer_ticks * COUNTER_RESET_FACTOR) % U32_MOD
        < spsPrev2000.prev_ticks) ∧
    (st_prep_line cfgAllZero spsPrev2000 steps100 ⟨true, 1000⟩).2.prev_ticks
      = (st_prep_line cfgAllZero spsPrev2000 steps100
          ⟨true, 1000⟩).2.timer_ticks :=
  C6_reset_flag cfgAllZero spsPrev2000 steps100 ⟨true, 1000⟩ rfl rfl
    (by norm_num [EPSILON])

/-- C7: with all polarities 0 and the prep buffer owned by the exec
side, `st_prep_line([100,0,0,0,0,0], 1000)` returns `STAT_OK` and stages
`timer_ticks = 200`, `timer_ticks_x_substeps = 2000` — equal to the
integer product `timer_ticks × SUBSTEPS` — with motor 0
`phase_increment = 1000` and `dir = 0`. -/
theorem C7_single_axis (cfg : Config) (sps : StPrepSingleton)
    (hpol : ∀ i, cfg.polarity i = 0)
    (hex : sps.exec_state = PREP_BUFFER_OWNED_BY_EXEC) :
    (st_prep_line cfg sps steps100 ⟨true, 1000⟩).1 = STAT_OK ∧
    (st_prep_line cfg sps steps100 ⟨true, 1000⟩).2.timer_ticks = 200 ∧
    (st_prep_line cfg sps steps100 ⟨true, 1000⟩).2.timer_ticks_X_substeps
      = 2000 ∧
    (st_prep_line cfg sps steps100 ⟨true, 1000⟩).2.timer_ticks_X_substeps
      = ((st_prep_line cfg sps steps100 ⟨true, 1000⟩).2.timer_ticks
          * DDA_SUBSTEPS) % U32_MOD ∧
    ((st_prep_line cfg sps steps100 ⟨true, 1000⟩).2.m 0).phase_increment
      = 1000 ∧
    ((st_prep_line cfg sps steps100 ⟨true, 1000⟩).2.m 0).dir = 0 := by
  unfold st_prep_line
  rw [if_neg (by simp [hex]), if_neg (by decide), if_neg (by norm_num [EPSILON])]
  dsimp only
  have hticks : truncToU32 ((1000 : ℚ) / 1000000 * (FREQUENCY_DDA : ℚ))
      = 200 := by
    norm_num [truncToU32, FREQUENCY_DDA, U32_MOD]
    omega
  have hinc : truncToU32 |steps100 0 * (DDA_SUBSTEPS : ℚ)| = 1000 := by
    norm_num [truncToU32, steps100, DDA_SUBSTEPS, U32_MOD]
    omega
  refine ⟨rfl, hticks, ?_, ?_, hinc, ?_⟩
  · rw [hticks]
    decide
  · rw [hticks]
  · rw [hpol 0]
    norm_num [steps100]

/-- C7 (witness): the scenario at the concrete configuration and prep
state of the spec. -/
theorem C7_single_axis_witness :
    (st_prep_line cfgAllZero spsOwned steps100 ⟨true, 1000⟩).1 = STAT_OK ∧
    (st_prep_line cfgAllZero spsOwned steps100 ⟨true, 1000⟩).2.timer_ticks
      = 200 ∧
    (st_prep_line cfgAllZero spsOwned steps100
        ⟨true, 1000⟩).2.timer_ticks_X_substeps = 2000 ∧
    (st_prep_line cfgAllZero spsOwned steps100
        ⟨true, 1000⟩).2.timer_ticks_X_substeps
      = ((st_prep_line cfgAllZero spsOwned steps100
            ⟨true, 1000⟩).2.timer_ticks * DDA_SUBSTEPS) % U32_MOD ∧
    ((st_prep_line cfgAllZero spsOwned steps100
        ⟨true, 1000⟩).2.m 0).phase_increment = 1000 ∧
    ((st_prep_line cfgAllZero spsOwned steps100 ⟨true, 1000⟩).2.m 0).dir
      = 0 :=
  C7_single_axis cfgAllZero spsOwned (fun _ => rfl) rfl

/-- C9: `st_prep_dwell` checks nothing and returns nothing: for every
duration — zero, negative, below `EPSILON` — and whatever the owner of
the prep buffer, it sets the move type to Dwell and `timer_ticks` to the
truncated `(microseconds / 10^6) × F_DWELL`, leaving every other Stage
field unchanged; `st_prep_line` on such a duration rejects it and leaves
the Stage alone. -/
theorem C9_prep_dwell (sps : StPrepSingleton) (microseconds : ℚ) :
    (st_prep_dwell sps microseconds).move_type = MOVE_TYPE_DWELL ∧
    (st_prep_dwell sps microseconds).timer_ticks
      = truncToU32 (microseconds / 1000000 * (FREQUENCY_DWELL : ℚ)) ∧
    (st_prep_dwell sps microseconds).exec_state = sps.exec_state ∧
    (st_prep_dwell sps microseconds).counter_reset_flag
      = sps.counter_reset_flag ∧
    (st_prep_dwell sps microseconds).prev_ticks = sps.prev_ticks ∧
    (st_prep_dwell sps microseconds).timer_ticks_X_substeps
      = sps.timer_ticks_X_substeps ∧
    (st_prep_dwell sps microseconds).m = sps.m ∧
    (∀ cfg steps, microseconds < EPSILON →
      (st_prep_line cfg sps steps ⟨true, microseconds⟩).1 ≠ STAT_OK ∧
      (st_prep_line cfg sps steps ⟨true, microseconds⟩).2 = sps) := by
  refine ⟨rfl, rfl, rfl, rfl, rfl, rfl, rfl, ?_⟩
  intro cfg steps hlt
  unfold st_prep_line
  by_cases hex : sps.exec_state = PREP_BUFFER_OWNED_BY_EXEC
  · rw [if_neg (by simp [hex]), if_neg (by simp), if_pos hlt]
    exact ⟨by simp, rfl⟩
  · rw [if_pos hex]
    exact ⟨by simp, rfl⟩

/-- C9 (witness): a negative duration, with the prep buffer not even
owned by the exec side: `st_prep_dwell` still stages a Dwell, while
`st_prep_line` rejects. -/
theorem C9_prep_dwell_witness :
    (st_prep_dwell spsLoader (-5)).move_type = MOVE_TYPE_DWELL ∧
    ((st_prep_line cfgAllZero spsLoader (fun _ => 0) ⟨true, -5⟩).1
        ≠ STAT_OK ∧
      (st_prep_line cfgAllZero spsLoader (fun _ => 0) ⟨true, -5⟩).2
        = spsLoader) :=
  ⟨(C9_prep_dwell spsLoader (-5)).1,
   (C9_prep_dwell spsLoader (-5)).2.2.2.2.2.2.2 cfgAllZero (fun _ => 0)
     (by norm_num [EPSILON])⟩

/-- C10: the dwell interrupt pre-decrements `timer_ticks_downcount` and
stops the dwell timer and invokes the loader exactly when the counter
was 1 on entry; on any other entry value — 0 included, where the counter
falls to -1 — the only effect is the decrement. -/
theorem C10_dwell_predecrement (s : St)
    (hlo : -(2 ^ 31) < s.run.timer_ticks_downcount)
    (hhi : s.run.timer_ticks_downcount < 2 ^ 31) :
    (s.run.timer_ticks_downcount = 1 →
      dwell_interrupt s
        = _load_move
            { s with
              run := { s.run with timer_ticks_downcount := 0 }
              hw := { s.hw with dwellRunning := false } }) ∧
    (s.run.timer_ticks_downcount ≠ 1 →
      dwell_interrupt s
        = { s with
            run := { s.run with
              timer_ticks_downcount := s.run.timer_ticks_downcount - 1 } }) := by
  have hw : wrap32 (s.run.timer_ticks_downcount - 1)
      = s.run.timer_ticks_downcount - 1 :=
    wrap32_eq_self (by omega) (by omega)
  constructor
  · intro h1
    unfold dwell_interrupt
    rw [hw, h1]
    norm_num
  · intro h1
    unfold dwell_interrupt
    rw [hw]
    rw [if_neg (by omega)]

/-- C10 (witness): a dwell loaded with `timer_ticks = 0`: the first tick
leaves the counter at -1, the dwell timer still running and the prep
buffer untouched — the stop-and-load branch is not taken. -/
theorem C10_dwell_predecrement_witness :
    (dwell_interrupt dwellAtZero).run.timer_ticks_downcount = -1 ∧
    (dwell_interrupt dwellAtZero).hw.dwellRunning = true ∧
    (dwell_interrupt dwellAtZero).sps = dwellAtZero.sps := by
  have h := (C10_dwell_predecrement dwellAtZero (by decide) (by decide)).2
    (by decide)
  rw [h]
  exact ⟨by decide, rfl, rfl⟩
